import Mathlib

/-!
# Verification of `vapoursynth-screenshots` against its specification

Shallow embedding of the decision procedures of `src/screenshots.py` and
`src/modules/utils.py`: the resize-ratio inference (`verify_resize`), the
symmetric mod-aligned crop (`crop_file`), the frame-metadata reader
(`_read_prop`) and HDR classifier (`_is_hdr_clip`), the tonemap attempt
sequencer (`_tonemap_with_retries`), the HDR fallback pipeline
(`_process_hdr_clip`) and the screenshot tag allocator (the tag block of
`generate_screenshots`).

Python integers are `Int`; Python's floor division `//` is `Int.fdiv` and
Python's `%` is `Int.fmod` (both agree with Python exactly for a nonzero
divisor).  Fallible calls return `Except PyExc`, with the constructor for
the Python exception class raised by the source.
-/

namespace Screenshots

/-- Python exception classes raised or caught by the embedded code. -/
inductive PyExc
  | vsError (msg : String)
  | valueError (msg : String)
  | keyError (key : String)
  | typeError
  | runtimeError (msg : String)
  | unicodeDecodeError
  | indexError
  | degenerateCrop
  deriving DecidableEq, Repr

/-- Python's `a // b` (floor division). Exact for `b ≠ 0`. -/
def pydiv (a b : Int) : Int := Int.fdiv a b

/-- Python's `a % b` (sign follows the divisor). Exact for `b ≠ 0`. -/
def pymod (a b : Int) : Int := Int.fmod a b

/-- `math.ceil(a / 2)` for an integer `a` (`(a + 1) // 2`, exact). -/
def ceil_half (a : Int) : Int := Int.fdiv (a + 1) 2

/-- Python's `str.lower()` (`Char.toLower` on each character — exact for
the ASCII kernel names this code passes around). -/
def py_lower (s : String) : String := ⟨s.data.map Char.toLower⟩

/-- A video clip as the geometry-level code sees it: fixed pixel
dimensions (`clip.width`, `clip.height`). -/
structure Clip where
  width : Int
  height : Int
  deriving DecidableEq, Repr

/-! ## `verify_resize` (src/modules/utils.py lines 70-128) -/

/-- The keys of `KERNEL_DICT` (src/modules/utils.py lines 52-60); the
values are external resize kernels, recorded here by name. -/
def KERNEL_KEYS : List String :=
  ["bilinear", "bicubic", "point", "lanczos", "spline16", "spline36", "spline64"]

/-- `DIMENSIONS` (src/modules/utils.py lines 46-51). -/
def DIMENSIONS : List (String × (Int × Int)) :=
  [("720p", (1280, 720)), ("1080p", (1920, 1080)),
   ("1440p", (2560, 1440)), ("2160p", (3840, 2160))]

/-- `DIMENSIONS[key]` for the keys the code uses (all present). -/
def dim_lookup (key : String) : Int × Int := (DIMENSIONS.lookup key).getD (0, 0)

/-- What `verify_resize` returns: either `clips[0]` untouched, or the call
`kernel(clip=clips[0], width=w, height=h)` to the external resize backend,
recorded symbolically with the resolved kernel key. -/
inductive ResizeOutcome
  | unchanged (c : Clip)
  | resized (kernelKey : String) (src : Clip) (w h : Int)
  deriving DecidableEq, Repr

/-- The aspect ratios `e.width / e.height` of `clips[1:]`.  The source
computes Python floats; exact rationals stand in for them here (the claims
under verification only reach this check with two clips, where it is
skipped). -/
def aspect_ratios (clips : List Clip) : List ℚ :=
  (clips.drop 1).map fun e => (e.width : ℚ) / (e.height : ℚ)

/-- Error text of the downscale failure branch (line 105-107). -/
def downscale_err (w h : Int) : String :=
  "Unable to determine downscale resizing ratio for dimensions '" ++
    toString w ++ "x" ++ toString h ++ "'."

/-- Error text of the upscale failure branch (line 115-118). -/
def upscale_err (w h : Int) : String :=
  "Unable to determine upscale resizing ratio for dimensions '" ++
    toString w ++ "x" ++ toString h ++ "'."

/-- `verify_resize` (src/modules/utils.py lines 70-128): aspect-ratio
sanity check, kernel lookup (a `KeyError` on an unknown key), then the
600-pixel / integer-ratio scale heuristics. -/
def verify_resize (clips : List Clip) (kernel : String := "spline36") :
    Except PyExc ResizeOutcome :=
  if 2 < clips.length ∧ 1 < (aspect_ratios clips).dedup.length then
    .error (.valueError "Cannot process encoded clips with different aspect ratios")
  else
    match clips with
    | c0 :: c1 :: _ =>
      let src_width := c0.width
      let enc_width := c1.width
      -- `kernel = KERNEL_DICT[kernel.lower()]` (line 95)
      if py_lower kernel ∉ KERNEL_KEYS then .error (.keyError (py_lower kernel))
      else if src_width - enc_width > 600 then
        if pydiv src_width enc_width = 2 then
          let d := dim_lookup "1080p"
          .ok (.resized (py_lower kernel) c0 d.1 d.2)
        else if pydiv src_width enc_width = 3 ∨ pydiv src_width enc_width = 1 then
          let d := dim_lookup "720p"
          .ok (.resized (py_lower kernel) c0 d.1 d.2)
        else
          .error (.valueError (downscale_err c1.width c1.height))
      else if enc_width - src_width > 600 then
        if pydiv enc_width src_width = 2 ∨ pydiv enc_width src_width = 3 then
          let d := dim_lookup "2160p"
          .ok (.resized (py_lower kernel) c0 d.1 d.2)
        else if pydiv enc_width src_width = 1 then
          let d := dim_lookup "1080p"
          .ok (.resized (py_lower kernel) c0 d.1 d.2)
        else
          .error (.valueError (upscale_err c1.width c1.height))
      else
        .ok (.unchanged c0)
    | _ => .error .indexError

/-! ## `crop_file` (src/modules/utils.py lines 131-164) -/

/-- One `while` loop of `crop_file`: while the first margin is not
divisible by the modulus, increment both margins of the axis.  The loop is
embedded with explicit fuel; `crop_geometry` supplies `mod_crop.toNat`
steps, which is enough for any positive modulus (at most `mod - 1`
iterations ever run). -/
def crop_adjust (m : Int) : Nat → Int × Int → Int × Int
  | 0, p => p
  | fuel + 1, (a, b) => if pymod a m ≠ 0 then crop_adjust m fuel (a + 1, b + 1) else (a, b)

/-- The four crop margins of `crop_file`. -/
structure CropGeometry where
  left : Int
  right : Int
  top : Int
  bottom : Int
  deriving DecidableEq, Repr

/-- Margin computation of `crop_file` (lines 144-156): symmetric `ceil`
halves of the dimension differences, then the two modulus-adjustment
loops (the height loop tests `top`, the width loop tests `right`). -/
def crop_geometry (clip : Clip) (width height : Int) (mod_crop : Int := 2) :
    CropGeometry :=
  let t0 := ceil_half (clip.height - height)
  let l0 := ceil_half (clip.width - width)
  let tb := crop_adjust mod_crop mod_crop.toNat (t0, t0)
  let rl := crop_adjust mod_crop mod_crop.toNat (l0, l0)
  { left := rl.2, right := rl.1, top := tb.1, bottom := tb.2 }

/-- Modelled from the spec: the external backend call
`core.std.Crop(clip, left, right, top, bottom)` is not part of this
repository; per the specification's interface statement the crop "fails
only if the resulting width or height becomes ≤ 0 (degenerate crop)" and
otherwise yields the clip with the margins removed. -/
def std_crop (clip : Clip) (left right top bottom : Int) : Except PyExc Clip :=
  if clip.width - (left + right) ≤ 0 ∨ clip.height - (top + bottom) ≤ 0 then
    .error .degenerateCrop
  else
    .ok ⟨clip.width - (left + right), clip.height - (top + bottom)⟩

/-- `crop_file` (src/modules/utils.py lines 131-164). -/
def crop_file (clip : Clip) (width height : Int) (mod_crop : Int := 2) :
    Except PyExc Clip :=
  let g := crop_geometry clip width height mod_crop
  std_crop clip g.left g.right g.top g.bottom

/-! ## Lemmas about the crop adjustment loop -/

theorem pymod_eq_emod (a m : Int) (hm : 0 ≤ m) : pymod a m = a % m :=
  Int.fmod_eq_emod a hm

theorem ceil_half_eq (a : Int) : ceil_half a = (a + 1) / 2 :=
  Int.fdiv_eq_ediv _ (by norm_num)

theorem pymod_two (a : Int) : pymod a 2 = a % 2 := pymod_eq_emod a 2 (by norm_num)

theorem pymod_four (a : Int) : pymod a 4 = a % 4 := pymod_eq_emod a 4 (by norm_num)

theorem pymod_eight (a : Int) : pymod a 8 = a % 8 := pymod_eq_emod a 8 (by norm_num)

/-- With a positive modulus and enough fuel, the adjustment loop adds to
both margins exactly the distance `(-a) % m` from the tested margin `a` up
to the next multiple of `m`. -/
theorem crop_adjust_spec (m : Int) (hm : 0 < m) :
    ∀ (fuel : Nat) (a b : Int), ((-a) % m).toNat ≤ fuel →
      crop_adjust m fuel (a, b) = (a + (-a) % m, b + (-a) % m) := by
  intro fuel
  induction fuel with
  | zero =>
    intro a b hle
    have hnn : 0 ≤ (-a) % m := Int.emod_nonneg _ (by omega)
    have h0 : (-a) % m = 0 := by omega
    simp [crop_adjust, h0]
  | succ fuel ih =>
    intro a b hle
    by_cases hc : pymod a m = 0
    · have hdvd : m ∣ a := Int.dvd_of_emod_eq_zero (by rwa [pymod_eq_emod _ _ hm.le] at hc)
      have h0 : (-a) % m = 0 := Int.emod_eq_zero_of_dvd (dvd_neg.mpr hdvd)
      simp [crop_adjust, hc, h0]
    · have hne : a % m ≠ 0 := by rwa [pymod_eq_emod _ _ hm.le] at hc
      have hnegne : (-a) % m ≠ 0 := by
        intro h0
        exact hne (Int.emod_eq_zero_of_dvd (dvd_neg.mp (Int.dvd_of_emod_eq_zero h0)))
      have hnn : 0 ≤ (-a) % m := Int.emod_nonneg _ (by omega)
      have hlt : (-a) % m < m := Int.emod_lt_of_pos _ hm
      have hm1 : 1 < m := by
        rcases Int.lt_or_le 1 m with h | h
        · exact h
        · exfalso
          have : m = 1 := by omega
          exact hne (by simp [this])
      have hstep : (-(a + 1)) % m = (-a) % m - 1 := by
        have hrw : (-(a + 1)) = (-a) - 1 := by ring
        rw [hrw, Int.sub_emod, Int.emod_eq_of_lt (by norm_num) hm1,
          Int.emod_eq_of_lt (by omega) (by omega)]
      have hfuel : ((-(a + 1)) % m).toNat ≤ fuel := by omega
      have := ih (a + 1) (b + 1) hfuel
      simp only [crop_adjust, if_pos hc, this, hstep, Prod.mk.injEq]
      constructor <;> ring


/-- The fuel `m.toNat` that `crop_geometry` hands the loop is always
enough for a positive modulus. -/
theorem crop_adjust_fueled (m : Int) (hm : 0 < m) (a : Int) :
    crop_adjust m m.toNat (a, a) = (a + (-a) % m, a + (-a) % m) := by
  have hnn : 0 ≤ (-a) % m := Int.emod_nonneg _ (by omega)
  have hlt : (-a) % m < m := Int.emod_lt_of_pos _ hm
  exact crop_adjust_spec m hm m.toNat a a (by omega)

/-- C1 (amended): for modulus 2 or 4, `crop_file`'s margins satisfy
`top = bottom`, `left = right`, and `top % modulus = 0`,
`right % modulus = 0` after the adjustment loops; the cropped dimensions
equal the requested targets whenever the source-minus-target differences
are divisible by twice the modulus (in general the adjustment loops
overshoot and the cropped dimension falls below the target). -/
theorem crop_margins_mod (clip : Clip) (w h m : Int) (hm : m = 2 ∨ m = 4) :
    (crop_geometry clip w h m).top = (crop_geometry clip w h m).bottom ∧
    (crop_geometry clip w h m).left = (crop_geometry clip w h m).right ∧
    pymod (crop_geometry clip w h m).top m = 0 ∧
    pymod (crop_geometry clip w h m).right m = 0 ∧
    (pymod (clip.height - h) (2 * m) = 0 →
      clip.height - ((crop_geometry clip w h m).top + (crop_geometry clip w h m).bottom) = h) ∧
    (pymod (clip.width - w) (2 * m) = 0 →
      clip.width - ((crop_geometry clip w h m).left + (crop_geometry clip w h m).right) = w) := by
  have hmpos : 0 < m := by rcases hm with rfl | rfl <;> norm_num
  have e : crop_geometry clip w h m =
      { left := ceil_half (clip.width - w) + (-(ceil_half (clip.width - w))) % m,
        right := ceil_half (clip.width - w) + (-(ceil_half (clip.width - w))) % m,
        top := ceil_half (clip.height - h) + (-(ceil_half (clip.height - h))) % m,
        bottom := ceil_half (clip.height - h) + (-(ceil_half (clip.height - h))) % m } := by
    simp only [crop_geometry, crop_adjust_fueled m hmpos]
  rw [e]
  rcases hm with rfl | rfl
  · refine ⟨rfl, rfl, ?_, ?_, ?_, ?_⟩
    · simp only [pymod_two, ceil_half_eq]
      omega
    · simp only [pymod_two, ceil_half_eq]
      omega
    · simp only [show (2 : Int) * 2 = 4 by norm_num, pymod_four, ceil_half_eq]
      intro hd
      omega
    · simp only [show (2 : Int) * 2 = 4 by norm_num, pymod_four, ceil_half_eq]
      intro hd
      omega
  · refine ⟨rfl, rfl, ?_, ?_, ?_, ?_⟩
    · simp only [pymod_four, ceil_half_eq]
      omega
    · simp only [pymod_four, ceil_half_eq]
      omega
    · simp only [show (2 : Int) * 4 = 8 by norm_num, pymod_eight, ceil_half_eq]
      intro hd
      omega
    · simp only [show (2 : Int) * 4 = 8 by norm_num, pymod_eight, ceil_half_eq]
      intro hd
      omega

/-- C1 witness: a concrete instance of `crop_margins_mod` (source
3840x2160 cropped to 1920x1080 at modulus 4, where both differences are
divisible by 8 and the targets are met exactly). -/
theorem crop_margins_mod_witness :
    (crop_geometry ⟨3840, 2160⟩ 1920 1080 4).top = (crop_geometry ⟨3840, 2160⟩ 1920 1080 4).bottom ∧
    (crop_geometry ⟨3840, 2160⟩ 1920 1080 4).left = (crop_geometry ⟨3840, 2160⟩ 1920 1080 4).right ∧
    pymod (crop_geometry ⟨3840, 2160⟩ 1920 1080 4).top 4 = 0 ∧
    pymod (crop_geometry ⟨3840, 2160⟩ 1920 1080 4).right 4 = 0 ∧
    (pymod ((2160 : Int) - 1080) (2 * 4) = 0 →
      (2160 : Int) - ((crop_geometry ⟨3840, 2160⟩ 1920 1080 4).top +
        (crop_geometry ⟨3840, 2160⟩ 1920 1080 4).bottom) = 1080) ∧
    (pymod ((3840 : Int) - 1920) (2 * 4) = 0 →
      (3840 : Int) - ((crop_geometry ⟨3840, 2160⟩ 1920 1080 4).left +
        (crop_geometry ⟨3840, 2160⟩ 1920 1080 4).right) = 1920) :=
  crop_margins_mod ⟨3840, 2160⟩ 1920 1080 4 (Or.inr rfl)

/-- C1 counterexample: source 1920x1080 cropped to 1920x1074 at
modulus 2.  The initial top margin `ceil(6 / 2) = 3` is odd, the loop
raises it to 4, and the cropped height is `1080 - 8 = 1072`, not the
requested 1074 — the claim's "cropped clip's dimensions equal the
requested targets" fails. -/
theorem crop_dims_counterexample :
    crop_geometry ⟨1920, 1080⟩ 1920 1074 2 =
      { left := 0, right := 0, top := 4, bottom := 4 } ∧
    (((1080 : Int) - ((crop_geometry ⟨1920, 1080⟩ 1920 1074 2).top +
        (crop_geometry ⟨1920, 1080⟩ 1920 1074 2).bottom) == 1074) = false) := by
  constructor
  · rfl
  · rfl

/-- C4: `crop_file` fails exactly when the dimensions left after removing
the adjusted margins are not positive, and the failure is the
degenerate-crop error; with both resulting dimensions positive it returns
the cropped clip with exactly those dimensions.  (Stated for a positive
modulus: at modulus 0 the Python loop itself would raise
`ZeroDivisionError`, which this embedding does not model.) -/
theorem crop_file_error_iff (clip : Clip) (w h m : Int) (hm : 0 < m) :
    (crop_file clip w h m = .error .degenerateCrop ↔
      (clip.width - ((crop_geometry clip w h m).left + (crop_geometry clip w h m).right) ≤ 0 ∨
        clip.height - ((crop_geometry clip w h m).top + (crop_geometry clip w h m).bottom) ≤ 0)) ∧
    (0 < clip.width - ((crop_geometry clip w h m).left + (crop_geometry clip w h m).right) →
      0 < clip.height - ((crop_geometry clip w h m).top + (crop_geometry clip w h m).bottom) →
      crop_file clip w h m =
        .ok ⟨clip.width - ((crop_geometry clip w h m).left + (crop_geometry clip w h m).right),
          clip.height - ((crop_geometry clip w h m).top + (crop_geometry clip w h m).bottom)⟩) := by
  simp only [crop_file, std_crop]
  split
  · next hcond =>
      exact ⟨⟨fun _ => hcond, fun _ => rfl⟩, fun hw hh => by omega⟩
  · next hcond =>
      refine ⟨⟨fun heq => by simp at heq, fun hc => absurd hc hcond⟩, fun _ _ => rfl⟩

/-- C4 witness: cropping a 3840x2160 clip to 1920x1080 at modulus 2
succeeds with the exact dimensions; the error branch is not triggered. -/
theorem crop_file_error_iff_witness :
    ((crop_file ⟨3840, 2160⟩ 1920 1080 2 = .error .degenerateCrop ↔
      ((3840 : Int) - ((crop_geometry ⟨3840, 2160⟩ 1920 1080 2).left +
          (crop_geometry ⟨3840, 2160⟩ 1920 1080 2).right) ≤ 0 ∨
        (2160 : Int) - ((crop_geometry ⟨3840, 2160⟩ 1920 1080 2).top +
          (crop_geometry ⟨3840, 2160⟩ 1920 1080 2).bottom) ≤ 0)) ∧
    (0 < (3840 : Int) - ((crop_geometry ⟨3840, 2160⟩ 1920 1080 2).left +
          (crop_geometry ⟨3840, 2160⟩ 1920 1080 2).right) →
      0 < (2160 : Int) - ((crop_geometry ⟨3840, 2160⟩ 1920 1080 2).top +
          (crop_geometry ⟨3840, 2160⟩ 1920 1080 2).bottom) →
      crop_file ⟨3840, 2160⟩ 1920 1080 2 =
        .ok ⟨(3840 : Int) - ((crop_geometry ⟨3840, 2160⟩ 1920 1080 2).left +
            (crop_geometry ⟨3840, 2160⟩ 1920 1080 2).right),
          (2160 : Int) - ((crop_geometry ⟨3840, 2160⟩ 1920 1080 2).top +
            (crop_geometry ⟨3840, 2160⟩ 1920 1080 2).bottom)⟩)) :=
  crop_file_error_iff ⟨3840, 2160⟩ 1920 1080 2 (by norm_num)

/-! ## Frame metadata: `_read_prop` (src/modules/utils.py lines 327-352)
and `_is_hdr_clip` (lines 355-359) -/

/-- A value held in a frame's property map.  `bytesVal` carries the result
of `value.decode()` (`none` when the bytes do not decode,
i.e. `UnicodeDecodeError`); `strVal` is a text value; `nonNumeric` is any
value `int()` rejects with `TypeError` (list, dict, frame reference, ...). -/
inductive MetaValue
  | intVal (n : Int)
  | bytesVal (decoded : Option String)
  | strVal (s : String)
  | nonNumeric
  deriving DecidableEq, Repr

/-- A frame's property map restricted to the four keys the code reads.
`none` is a missing key (`props.get(key)` returns `None`). -/
structure Props where
  matrix : Option MetaValue := none
  transfer : Option MetaValue := none
  primaries : Option MetaValue := none
  colorRange : Option MetaValue := none
  deriving DecidableEq, Repr

/-- `props.get(key)` (the code's duck-typed access always resolves to the
mapping-style `get`, which VapourSynth frame props provide). -/
def propsGet (p : Props) (key : String) : Option MetaValue :=
  if key = "_Matrix" then p.matrix
  else if key = "_Transfer" then p.transfer
  else if key = "_Primaries" then p.primaries
  else if key = "_ColorRange" then p.colorRange
  else none

/-- `int(s)` on a string: an integer on success, `ValueError` otherwise
(Python's whitespace/underscore tolerance is not modelled; no claim
depends on it). -/
def py_int_of_string (s : String) : Except PyExc Int :=
  match s.toInt? with
  | some n => .ok n
  | none => .error (.valueError "invalid literal for int()")

/-- `value.decode()` on a bytes value. -/
def py_decode (decoded : Option String) : Except PyExc String :=
  match decoded with
  | some s => .ok s
  | none => .error .unicodeDecodeError

/-- `int(value)` on a non-bytes metadata value. -/
def py_int_of_value : MetaValue → Except PyExc Int
  | .intVal n => .ok n
  | .strVal s => py_int_of_string s
  | .bytesVal (some s) => py_int_of_string s
  | .bytesVal none => .error (.valueError "invalid literal for int()")
  | .nonNumeric => .error .typeError

/-- `_read_prop` (src/modules/utils.py lines 327-352).  The two
`try`/`except` blocks are embedded as matches on the fallible primitives:
`except Exception` around `decode` catches every error kind,
`except ValueError` around `int(decoded)` and
`except (TypeError, ValueError)` around `int(value)` catch exactly those
kinds and let any other propagate. -/
def read_prop (p : Props) (key : String) : Except PyExc (Option Int) :=
  match propsGet p key with
  | none => .ok none
  | some v =>
    match v with
    | .bytesVal decoded =>
      match py_decode decoded with
      | .error _ => .ok none
      | .ok s =>
        match py_int_of_string s with
        | .ok n => .ok (some n)
        | .error (.valueError _) => .ok none
        | .error e => .error e
    | _ =>
      match py_int_of_value v with
      | .ok n => .ok (some n)
      | .error .typeError => .ok none
      | .error (.valueError _) => .ok none
      | .error e => .error e

/-- The integer code `_read_prop` yields (it never raises, as C9 proves). -/
def read_prop_val (p : Props) (key : String) : Option Int :=
  match read_prop p key with
  | .ok v => v
  | .error _ => none

/-- `_HDR_TRANSFERS = {16, 18}` (src/modules/utils.py line 17). -/
def HDR_TRANSFERS : List Int := [16, 18]

/-- `_BT2020_PRIMARIES = 9` (src/modules/utils.py line 18). -/
def BT2020_PRIMARIES : Int := 9

/-- `transfer in _HDR_TRANSFERS` for an optional code (`None in {16, 18}`
is false in Python). -/
def opt_mem (x : Option Int) (l : List Int) : Bool :=
  match x with
  | some v => l.contains v
  | none => false

/-- `_is_hdr_clip` (src/modules/utils.py lines 355-359). -/
def is_hdr_clip (p : Props) : Except PyExc Bool := do
  let transfer ← read_prop p "_Transfer"
  let primaries ← read_prop p "_Primaries"
  pure (opt_mem transfer HDR_TRANSFERS && (primaries == some BT2020_PRIMARIES))

/-- `_read_prop` can never reach an `Except.error`: every fallible
primitive it calls raises only kinds its `except` clauses catch. -/
theorem read_prop_ne_error (p : Props) (key : String) (e : PyExc) :
    read_prop p key ≠ .error e := by
  unfold read_prop
  rcases hpk : propsGet p key with _ | v
  · simp
  · cases v with
    | intVal n => simp [py_int_of_value]
    | bytesVal d =>
      cases d with
      | none => simp [py_decode]
      | some s =>
        cases hs : s.toInt? <;> simp [py_decode, py_int_of_string, hs]
    | strVal s =>
      cases hs : s.toInt? <;> simp [py_int_of_value, py_int_of_string, hs]
    | nonNumeric => simp [py_int_of_value]

/-- `_read_prop` always returns `ok` with the value `read_prop_val` names. -/
theorem read_prop_ok (p : Props) (key : String) :
    read_prop p key = .ok (read_prop_val p key) := by
  cases h : read_prop p key with
  | ok v => simp [read_prop_val, h]
  | error e => exact absurd h (read_prop_ne_error p key e)

/-- C9: `_read_prop` is total — it never raises; an integer value is
returned as its code, a decodable bytes value is decoded then parsed (an
unparsable decode yields `None`), undecodable bytes, unparsable text,
non-numeric values and missing keys all yield `None`. -/
theorem read_prop_total (p : Props) (key : String) (n : Int) (s : String) :
    (∃ r, read_prop p key = .ok r) ∧
    (propsGet p key = some (.intVal n) → read_prop p key = .ok (some n)) ∧
    (propsGet p key = some (.bytesVal (some s)) →
      read_prop p key = .ok (py_int_of_string s).toOption) ∧
    (propsGet p key = some (.bytesVal none) → read_prop p key = .ok none) ∧
    (propsGet p key = some (.strVal s) →
      read_prop p key = .ok (py_int_of_string s).toOption) ∧
    (propsGet p key = some .nonNumeric → read_prop p key = .ok none) ∧
    (propsGet p key = none → read_prop p key = .ok none) := by
  refine ⟨⟨read_prop_val p key, read_prop_ok p key⟩, ?_, ?_, ?_, ?_, ?_, ?_⟩
  · intro hpk
    simp [read_prop, hpk, py_int_of_value]
  · intro hpk
    cases hs : s.toInt? <;>
      simp [read_prop, hpk, py_decode, py_int_of_string, hs, Except.toOption]
  · intro hpk
    simp [read_prop, hpk, py_decode]
  · intro hpk
    cases hs : s.toInt? <;>
      simp [read_prop, hpk, py_int_of_value, py_int_of_string, hs, Except.toOption]
  · intro hpk
    simp [read_prop, hpk, py_int_of_value]
  · intro hpk
    simp [read_prop, hpk]

/-- C9 witness: concrete metadata records exercising each decode rule. -/
theorem read_prop_total_witness :
    (∃ r, read_prop { transfer := some (.intVal 16) } "_Transfer" = .ok r) ∧
    (propsGet { transfer := some (.intVal 16) } "_Transfer" = some (.intVal 16) →
      read_prop { transfer := some (.intVal 16) } "_Transfer" = .ok (some 16)) ∧
    (propsGet { transfer := some (.intVal 16) } "_Transfer" = some (.bytesVal (some "9")) →
      read_prop { transfer := some (.intVal 16) } "_Transfer" = .ok (py_int_of_string "9").toOption) ∧
    (propsGet { transfer := some (.intVal 16) } "_Transfer" = some (.bytesVal none) →
      read_prop { transfer := some (.intVal 16) } "_Transfer" = .ok none) ∧
    (propsGet { transfer := some (.intVal 16) } "_Transfer" = some (.strVal "9") →
      read_prop { transfer := some (.intVal 16) } "_Transfer" = .ok (py_int_of_string "9").toOption) ∧
    (propsGet { transfer := some (.intVal 16) } "_Transfer" = some .nonNumeric →
      read_prop { transfer := some (.intVal 16) } "_Transfer" = .ok none) ∧
    (propsGet { transfer := some (.intVal 16) } "_Transfer" = none →
      read_prop { transfer := some (.intVal 16) } "_Transfer" = .ok none) :=
  read_prop_total { transfer := some (.intVal 16) } "_Transfer" 16 "9"

/-- C7: the HDR classifier answers true exactly when the normalized
transfer code is 16 (PQ) or 18 (HLG) and the normalized primaries code is
9 (BT.2020); every other combination — including a missing or malformed
field, which normalizes to `none` — classifies as non-HDR, and the
classifier itself never raises. -/
theorem is_hdr_clip_iff (p : Props) :
    is_hdr_clip p =
      .ok (decide ((read_prop_val p "_Transfer" = some 16 ∨
          read_prop_val p "_Transfer" = some 18) ∧
        read_prop_val p "_Primaries" = some 9)) := by
  have ht := read_prop_ok p "_Transfer"
  have hp := read_prop_ok p "_Primaries"
  simp only [is_hdr_clip, ht, hp, bind, Except.bind, pure, Except.pure, Except.ok.injEq]
  rcases read_prop_val p "_Transfer" with _ | v <;>
    rcases read_prop_val p "_Primaries" with _ | w <;>
    simp [opt_mem, HDR_TRANSFERS, BT2020_PRIMARIES, List.contains] <;>
    by_cases hw : w = 9 <;> simp [hw]

/-! ## Tonemap sequencer (src/modules/utils.py lines 458-546) -/

/-- `_TonemapSettings` (src/modules/utils.py lines 23-38), the frozen
process-wide configuration.  Float fields are exact rationals. -/
structure TonemapSettings where
  func : String := "bt2390"
  dst_max : ℚ := 120
  dst_min : ℚ := 0.1
  dpd : Bool := true
  gamut_mapping : Int := 1
  smoothing_period : Int := 200
  min_dynamic_peak : ℚ := 1
  scene_threshold_low : ℚ := 1.8
  scene_threshold_high : ℚ := 5
  deriving DecidableEq, Repr

/-- `_TONEMAP_SETTINGS` (line 38). -/
def TONEMAP_SETTINGS : TonemapSettings := {}

/-- The keyword set passed to `placebo.Tonemap` (`base_kwargs`, lines
483-496, plus the optional `src_csp` the attempt loop adds). -/
structure TonemapKwargs where
  dst_csp : Int
  dst_prim : Int
  dst_max : ℚ
  dst_min : ℚ
  dynamic_peak_detection : Bool
  gamut_mapping : Int
  tone_mapping_function_s : String
  use_dovi : Bool
  smoothing_period : Int
  min_dynamic_peak : ℚ
  scene_threshold_low : ℚ
  scene_threshold_high : ℚ
  src_csp : Option Int := none
  deriving DecidableEq, Repr

/-- `base_kwargs` (lines 483-496). -/
def base_kwargs (s : TonemapSettings) : TonemapKwargs :=
  { dst_csp := 0, dst_prim := 1, dst_max := s.dst_max, dst_min := s.dst_min,
    dynamic_peak_detection := s.dpd, gamut_mapping := s.gamut_mapping,
    tone_mapping_function_s := s.func, use_dovi := true,
    smoothing_period := s.smoothing_period,
    min_dynamic_peak := s.min_dynamic_peak,
    scene_threshold_low := s.scene_threshold_low,
    scene_threshold_high := s.scene_threshold_high,
    src_csp := none }

/-- The attempt plan (lines 498-506): the hinted parameter set first when
a source-colorspace hint was deduced, then the un-hinted baseline, then
the forced-PQ baseline (`src_csp = 1`). -/
def build_attempts (hint : Option Int) : List TonemapKwargs :=
  let base := base_kwargs TONEMAP_SETTINGS
  (match hint with
   | some h => [{ base with src_csp := some h }]
   | none => []) ++ [base, { base with src_csp := some 1 }]

/-- The kwargs of `core.std.SetFrameProps` calls made by the HDR path:
`_normalize_props_for_placebo_rgb16` sets `_Matrix = 0`, `_ColorRange = 0`
and optionally `_Transfer`/`_Primaries`; `_apply_tonemap_props` sets the
`_Tonemapped` diagnostic string. -/
structure SetFramePropsArgs where
  matrix : Option Int := none
  colorRange : Option Int := none
  transfer : Option Int := none
  primaries : Option Int := none
  tonemapped : Option String := none
  deriving DecidableEq, Repr

/-- `vs.RGB48` / `vs.RGB24` as the conversion helpers use them. -/
inductive PixelFormat
  | RGB48
  | RGB24
  deriving DecidableEq, Repr

/-- The kwargs of the `core.resize.Spline36` calls made by the HDR path. -/
structure ResizeKwargs where
  format : PixelFormat
  dither_type : Option String := none
  matrix_in : Option Int := none
  transfer_in : Option Int := none
  primaries_in : Option Int := none
  range_in : Option Int := none
  deriving DecidableEq, Repr

/-- `clip.format` as the conversion helpers read it: `none` for a
variable-format clip, otherwise (color family, bits per sample). -/
inductive ColorFamily
  | yuv
  | rgb
  | gray
  deriving DecidableEq, Repr

/-- The external VapourSynth surface the HDR path calls, over an abstract
clip type `α`.  Every call is fallible, with behavior chosen by the
environment; `placebo_tonemap` is `none` when the vs-placebo plugin is
absent, and its `Nat` argument is the 1-based attempt index of the call
(the backend's outcome may differ from call to call). -/
structure VSEnv (α : Type) where
  format_of : α → Option (ColorFamily × Nat)
  get_frame0_props : α → Except PyExc Props
  resize_spline36 : α → ResizeKwargs → Except PyExc α
  set_frame_props : α → SetFramePropsArgs → Except PyExc α
  placebo_tonemap : Option (Nat → α → TonemapKwargs → Except PyExc α)

/-- `_first_frame_props` (lines 323-324): `clip.get_frame(0).props`. -/
def first_frame_props {α : Type} (env : VSEnv α) (clip : α) : Except PyExc Props :=
  env.get_frame0_props clip

/-- `_convert_to_rgb48` (lines 362-388). -/
def convert_to_rgb48 {α : Type} (env : VSEnv α) (clip : α) (propsArg : Option Props) :
    Except PyExc α := do
  let props ← match propsArg with
    | none => first_frame_props env clip
    | some p => pure p
  let isRGB16 := match env.format_of clip with
    | some (fam, bits) => fam == ColorFamily.rgb && bits == 16
    | none => false
  if isRGB16 then
    pure clip
  else do
    let matrix ← read_prop props "_Matrix"
    let transfer ← read_prop props "_Transfer"
    let primaries ← read_prop props "_Primaries"
    let colorRange ← read_prop props "_ColorRange"
    env.resize_spline36 clip
      { format := .RGB48, matrix_in := matrix, transfer_in := transfer,
        primaries_in := primaries, range_in := colorRange }

/-- `_convert_to_rgb24` (lines 391-420); note it tests the format before
defaulting the props, and always dithers with error diffusion. -/
def convert_to_rgb24 {α : Type} (env : VSEnv α) (clip : α) (propsArg : Option Props) :
    Except PyExc α := do
  let isRGB8 := match env.format_of clip with
    | some (fam, bits) => fam == ColorFamily.rgb && bits == 8
    | none => false
  if isRGB8 then
    pure clip
  else do
    let props ← match propsArg with
      | none => first_frame_props env clip
      | some p => pure p
    let matrix ← read_prop props "_Matrix"
    let transfer ← read_prop props "_Transfer"
    let primaries ← read_prop props "_Primaries"
    let colorRange ← read_prop props "_ColorRange"
    env.resize_spline36 clip
      { format := .RGB24, dither_type := some "error_diffusion",
        matrix_in := matrix, transfer_in := transfer,
        primaries_in := primaries, range_in := colorRange }

/-- `_normalize_props_for_placebo_rgb16` (lines 423-440). -/
def normalize_props_for_placebo_rgb16 {α : Type} (env : VSEnv α) (clip : α)
    (props : Props) : Except PyExc α := do
  let transfer ← read_prop props "_Transfer"
  let primaries ← read_prop props "_Primaries"
  env.set_frame_props clip
    { matrix := some 0, colorRange := some 0, transfer := transfer,
      primaries := primaries }

/-- `_deduce_src_csp_from_props` (lines 443-455). -/
def deduce_src_csp_from_props (props : Props) : Except PyExc (Option Int) := do
  let transfer ← read_prop props "_Transfer"
  let primaries ← read_prop props "_Primaries"
  if primaries ≠ some BT2020_PRIMARIES then pure none
  else if transfer = some 16 then pure (some 1)
  else if transfer = some 18 then pure (some 2)
  else pure none

/-- The `_Tonemapped` diagnostic string of `_apply_tonemap_props` (lines
460-463), instantiated at the frozen settings (Python float formatting of
`dst_max` is not modelled beyond its frozen value `120.0`). -/
def tonemap_prop_string (s : TonemapSettings) : String :=
  "placebo:" ++ s.func ++ ",dpd=" ++ (if s.dpd then "true" else "false") ++
    ",dst_max=120.0"

/-- `_apply_tonemap_props` (lines 458-469): stamp the diagnostic marker. -/
def apply_tonemap_props {α : Type} (env : VSEnv α) (clip : α) : Except PyExc α :=
  env.set_frame_props clip { tonemapped := some (tonemap_prop_string TONEMAP_SETTINGS) }

/-- The attempt loop of `_tonemap_with_retries` (lines 508-523), returning
the kwargs of the backend calls actually made together with the result.
Only `vs.Error` advances the loop (`except vs.Error`); any other exception
escapes at once.  Exhaustion re-raises the last failure, or the
`RuntimeError` of line 523 when no attempt ran. -/
def tonemap_attempts_run {α : Type} (env : VSEnv α)
    (tm : Nat → α → TonemapKwargs → Except PyExc α) (clip : α) :
    List TonemapKwargs → Nat → Option PyExc → List TonemapKwargs × Except PyExc α
  | [], _, lastExc =>
    ([], .error (lastExc.getD (.runtimeError "Unknown error during tonemap attempts")))
  | kw :: rest, index, _ =>
    match tm index clip kw with
    | .ok tonemapped => ([kw], apply_tonemap_props env tonemapped)
    | .error (.vsError msg) =>
      let r := tonemap_attempts_run env tm clip rest (index + 1) (some (.vsError msg))
      (kw :: r.1, r.2)
    | .error e => ([kw], .error e)

/-- `_tonemap_with_retries` (lines 472-523). -/
def tonemap_with_retries {α : Type} (env : VSEnv α) (clip : α) (hint : Option Int) :
    List TonemapKwargs × Except PyExc α :=
  match env.placebo_tonemap with
  | none => ([], .error (.runtimeError "vs-placebo Tonemap is not available"))
  | some tm => tonemap_attempts_run env tm clip (build_attempts hint) 1 none

/-- The body of `_process_hdr_clip`'s `try` block (lines 537-541). -/
def hdr_attempt {α : Type} (env : VSEnv α) (clip : α) (props : Props) :
    Except PyExc α := do
  let rgb16 ← convert_to_rgb48 env clip (some props)
  let normalized ← normalize_props_for_placebo_rgb16 env rgb16 props
  let hint ← deduce_src_csp_from_props props
  (tonemap_with_retries env normalized hint).2

/-- `_finalize_rgb24` (lines 526-531). -/
def finalize_rgb24 {α : Type} (env : VSEnv α) (clip : α) : Except PyExc α :=
  env.resize_spline36 clip { format := .RGB24, dither_type := some "error_diffusion" }

/-- `_process_hdr_clip` (lines 534-546).  The first-frame metadata read
happens before the `try` block, so its failure propagates; a failure
inside the block falls back to the direct SDR conversion of the original
clip; a success is finalized to RGB24 outside the `except` handler. -/
def process_hdr_clip {α : Type} (env : VSEnv α) (clip : α) : Except PyExc α :=
  match first_frame_props env clip with
  | .error e => .error e
  | .ok props =>
    match hdr_attempt env clip props with
    | .ok tonemapped => finalize_rgb24 env tonemapped
    | .error _ => convert_to_rgb24 env clip (some props)

/-- C6: the attempt plan holds at most 3 entries, in the order (hinted —
present exactly when a hint was deduced), (un-hinted baseline),
(forced-PQ baseline); the loop stops at the first success, so a backend
that succeeds on attempt 1 is called once, and one that fails (with
`vs.Error`) on attempts 1 and 2 and succeeds on 3 is called exactly three
times, in plan order. -/
theorem tonemap_attempt_sequencing {α : Type} (env : VSEnv α) (clip : α)
    (hint : Option Int) :
    (build_attempts hint).length ≤ 3 ∧
    build_attempts hint =
      (match hint with
       | some h => [{ base_kwargs TONEMAP_SETTINGS with src_csp := some h }]
       | none => []) ++
        [base_kwargs TONEMAP_SETTINGS,
         { base_kwargs TONEMAP_SETTINGS with src_csp := some 1 }] ∧
    (∀ tm kw rest out, env.placebo_tonemap = some tm →
      build_attempts hint = kw :: rest → tm 1 clip kw = .ok out →
      (tonemap_with_retries env clip hint).1 = [kw] ∧
      (tonemap_with_retries env clip hint).2 = apply_tonemap_props env out) ∧
    (∀ tm h m1 m2 out, env.placebo_tonemap = some tm → hint = some h →
      tm 1 clip { base_kwargs TONEMAP_SETTINGS with src_csp := some h } =
        .error (.vsError m1) →
      tm 2 clip (base_kwargs TONEMAP_SETTINGS) = .error (.vsError m2) →
      tm 3 clip { base_kwargs TONEMAP_SETTINGS with src_csp := some 1 } = .ok out →
      (tonemap_with_retries env clip hint).1 =
        [{ base_kwargs TONEMAP_SETTINGS with src_csp := some h },
         base_kwargs TONEMAP_SETTINGS,
         { base_kwargs TONEMAP_SETTINGS with src_csp := some 1 }] ∧
      (tonemap_with_retries env clip hint).2 = apply_tonemap_props env out) := by
  refine ⟨?_, ?_, ?_, ?_⟩
  · cases hint <;> simp [build_attempts]
  · cases hint <;> rfl
  · intro tm kw rest out htm hplan hok
    simp [tonemap_with_retries, htm, hplan, tonemap_attempts_run, hok]
  · intro tm h m1 m2 out htm hh h1 h2 h3
    subst hh
    simp [tonemap_with_retries, htm, build_attempts, tonemap_attempts_run, h1, h2, h3]

/-- A small concrete environment whose tonemap backend fails with
`vs.Error` on the first two calls and succeeds on the third. -/
def demo_tonemap_env : VSEnv Unit :=
  { format_of := fun _ => none,
    get_frame0_props := fun _ => .ok {},
    resize_spline36 := fun c _ => .ok c,
    set_frame_props := fun c _ => .ok c,
    placebo_tonemap :=
      some (fun i c _ => if i < 3 then .error (.vsError "attempt failed") else .ok c) }

/-- C6 witness: against `demo_tonemap_env` with an HLG hint, the
sequencer makes exactly the three calls of the plan, in order, and ends
in success. -/
theorem tonemap_attempt_sequencing_witness :
    (tonemap_with_retries demo_tonemap_env () (some 2)).1 =
      [{ base_kwargs TONEMAP_SETTINGS with src_csp := some 2 },
       base_kwargs TONEMAP_SETTINGS,
       { base_kwargs TONEMAP_SETTINGS with src_csp := some 1 }] ∧
    (tonemap_with_retries demo_tonemap_env () (some 2)).2 = .ok () := by
  have h := (tonemap_attempt_sequencing demo_tonemap_env () (some 2)).2.2.2
    (fun i c _ => if i < 3 then .error (.vsError "attempt failed") else .ok c)
    2 "attempt failed" "attempt failed" () rfl rfl rfl rfl rfl
  exact ⟨h.1, by rw [h.2]; rfl⟩

/-- C3 (amended): when the first-frame metadata read succeeds, any
failure inside the guarded HDR block — RGB48 conversion, props
normalization, hint deduction or the tonemap attempts — makes
`_process_hdr_clip` return the direct SDR conversion of the original
clip, with no exception propagating (provided that fallback conversion
itself succeeds). -/
theorem process_hdr_fallback {α : Type} (env : VSEnv α) (clip fb : α)
    (props : Props) (e : PyExc)
    (hread : env.get_frame0_props clip = .ok props)
    (hfail : hdr_attempt env clip props = .error e)
    (hfb : convert_to_rgb24 env clip (some props) = .ok fb) :
    process_hdr_clip env clip = .ok fb := by
  simp [process_hdr_clip, first_frame_props, hread, hfail, hfb]

/-- An environment whose RGB48 conversion fails (the resize backend
rejects the RGB48 format) while everything else succeeds. -/
def hdr_fallback_env : VSEnv Unit :=
  { format_of := fun _ => none,
    get_frame0_props := fun _ =>
      .ok { transfer := some (.intVal 16), primaries := some (.intVal 9) },
    resize_spline36 := fun c kw =>
      if kw.format = PixelFormat.RGB48 then .error (.vsError "RGB48 unsupported")
      else .ok c,
    set_frame_props := fun c _ => .ok c,
    placebo_tonemap := none }

/-- C3 witness: in `hdr_fallback_env` the guarded block fails at the
RGB48 conversion and `_process_hdr_clip` returns the fallback clip. -/
theorem process_hdr_fallback_witness :
    process_hdr_clip hdr_fallback_env () = .ok () :=
  process_hdr_fallback hdr_fallback_env () ()
    { transfer := some (.intVal 16), primaries := some (.intVal 9) }
    (.vsError "RGB48 unsupported") rfl rfl rfl

/-- An environment whose first-frame metadata read itself raises. -/
def hdr_read_fail_env : VSEnv Unit :=
  { format_of := fun _ => none,
    get_frame0_props := fun _ => .error (.vsError "failed reading frame 0"),
    resize_spline36 := fun c _ => .ok c,
    set_frame_props := fun c _ => .ok c,
    placebo_tonemap := some (fun _ c _ => .ok c) }

/-- C3 counterexample: the first-frame metadata read happens before the
`try` block (src/modules/utils.py line 535), so its exception propagates
to the caller — against the claim that an exception anywhere in the HDR
branch, the metadata read included, ends in the SDR fallback with no
exception propagating. -/
theorem process_hdr_counterexample :
    process_hdr_clip hdr_read_fail_env () = .error (.vsError "failed reading frame 0") :=
  rfl

/-! ## Screenshot tag allocation (src/screenshots.py lines 198-220) -/

/-- The scan loop of `generate_screenshots` (lines 207-211): for each
image file, the character code of the first alphabetic character of its
name is kept, first occurrence first, skipping repeats (`if char and char
not in chars`).  `fileChars` is that first-alphabetic code per image
file, in directory iteration order. -/
def collect_chars (fileChars : List Int) : List Int :=
  go [] fileChars
where
  go (chars : List Int) : List Int → List Int
    | [] => chars
    | c :: rest =>
      if c ≠ 0 ∧ c ∉ chars then go (chars ++ [c]) rest else go chars rest

/-- The extension loop (lines 216-220): append `chr(ord(last) + 1)`
`difference` times, reading the current last tag each iteration. -/
def extend_tags (tags : List Int) : Nat → List Int
  | 0 => tags
  | n + 1 => extend_tags (tags ++ [tags.getLastD 0 + 1]) n

/-- The tag computation of `generate_screenshots` (lines 212-220), on
character codes: with no previously used tags, `clip_len` sequential
codes from `ord('a') = 97`; otherwise every previously observed code
shifted by `+clip_len`, extended by incrementing from the last tag when
fewer than `clip_len` result. -/
def generate_tags (chars : List Int) (clip_len : Nat) : List Int :=
  if chars.length = 0 then
    (List.range clip_len).map fun c => 97 + (c : Int)
  else
    let tags := chars.map (· + (clip_len : Int))
    if tags.length < clip_len then extend_tags tags (clip_len - tags.length)
    else tags

/-- C2 evaluation at the failing input (and at the documented base
cases).  An empty directory with 3 clips yields `a, b, c` as the claim
says; but a directory whose artifacts carry the tags `a` and `c` (codes
97 and 99) with 2 clips yields codes `99, 101` — the tag `c` (99)
collides with the existing `c` artifacts, which the `+N` shift was
documented to prevent; and with scan order `c, a` and 4 clips the
extension loop even repeats code 103 inside one run. -/
theorem generate_tags_collision :
    generate_tags (collect_chars []) 3 = [97, 98, 99] ∧
    generate_tags (collect_chars [97, 99]) 2 = [99, 101] ∧
    List.contains [97, 99] 99 = true ∧
    generate_tags (collect_chars [99, 97]) 4 = [103, 101, 102, 103] ∧
    (decide ((generate_tags (collect_chars [99, 97]) 4).Nodup)) = false := by
  refine ⟨rfl, rfl, rfl, rfl, ?_⟩
  decide

/-! ## Theorems about `verify_resize` -/

/-- C5: the ratio decision table of `verify_resize`.  With a resolvable
kernel and positive widths: on the downscale path
(`src_width - enc_width > 600`) integer ratio 2 selects the 1080p target,
ratio 1 or 3 the 720p target, and any other ratio fails with the error
naming the encode's dimensions; on the upscale path
(`enc_width - src_width > 600`) ratio 2 or 3 selects 2160p, ratio 1
selects 1080p, and any other ratio fails likewise. -/
theorem verify_resize_ratio_table (src enc : Clip) (kernel : String)
    (hker : py_lower kernel ∈ KERNEL_KEYS)
    (hsw : 0 < src.width) (hew : 0 < enc.width) :
    (src.width - enc.width > 600 → pydiv src.width enc.width = 2 →
      verify_resize [src, enc] kernel = .ok (.resized (py_lower kernel) src 1920 1080)) ∧
    (src.width - enc.width > 600 →
      (pydiv src.width enc.width = 3 ∨ pydiv src.width enc.width = 1) →
      verify_resize [src, enc] kernel = .ok (.resized (py_lower kernel) src 1280 720)) ∧
    (src.width - enc.width > 600 → pydiv src.width enc.width ≠ 2 →
      pydiv src.width enc.width ≠ 3 → pydiv src.width enc.width ≠ 1 →
      verify_resize [src, enc] kernel =
        .error (.valueError (downscale_err enc.width enc.height))) ∧
    (enc.width - src.width > 600 →
      (pydiv enc.width src.width = 2 ∨ pydiv enc.width src.width = 3) →
      verify_resize [src, enc] kernel = .ok (.resized (py_lower kernel) src 3840 2160)) ∧
    (enc.width - src.width > 600 → pydiv enc.width src.width = 1 →
      verify_resize [src, enc] kernel = .ok (.resized (py_lower kernel) src 1920 1080)) ∧
    (enc.width - src.width > 600 → pydiv enc.width src.width ≠ 2 →
      pydiv enc.width src.width ≠ 3 → pydiv enc.width src.width ≠ 1 →
      verify_resize [src, enc] kernel =
        .error (.valueError (upscale_err enc.width enc.height))) := by
  have hlen : ¬(2 < ([src, enc] : List Clip).length ∧
      1 < (aspect_ratios [src, enc]).dedup.length) := by
    simp [aspect_ratios]
  refine ⟨?_, ?_, ?_, ?_, ?_, ?_⟩
  · intro hgt hr
    simp [verify_resize, hlen, hker, hgt, hr, dim_lookup, DIMENSIONS] <;> decide
  · intro hgt hr
    have hne : ¬pydiv src.width enc.width = 2 := by
      rcases hr with hr | hr <;> omega
    simp [verify_resize, hlen, hker, hgt, hne, hr, dim_lookup, DIMENSIONS]
  · intro hgt h2 h3 h1
    simp [verify_resize, hlen, hker, hgt, h2, h3, h1]
  · intro hgt hr
    have hlt : ¬(src.width - enc.width > 600) := by omega
    rcases hr with hr | hr
    · simp [verify_resize, hlen, hker, hlt, hgt, hr, dim_lookup, DIMENSIONS] <;> decide
    · have hne : ¬pydiv enc.width src.width = 2 := by omega
      simp [verify_resize, hlen, hker, hlt, hgt, hne, hr, dim_lookup, DIMENSIONS] <;> decide
  · intro hgt hr
    have hlt : ¬(src.width - enc.width > 600) := by omega
    have hne2 : ¬pydiv enc.width src.width = 2 := by omega
    have hne3 : ¬pydiv enc.width src.width = 3 := by omega
    simp [verify_resize, hlen, hker, hlt, hgt, hne2, hne3, hr, dim_lookup, DIMENSIONS] <;> decide
  · intro hgt h2 h3 h1
    have hlt : ¬(src.width - enc.width > 600) := by omega
    simp [verify_resize, hlen, hker, hlt, hgt, h2, h3, h1]

/-- C5 witness: the ratio table instantiated at a 3840x2160 source
against a 1920x1080 encode with the default kernel (downscale, exact
ratio 2). -/
theorem verify_resize_ratio_table_witness :
    ((3840 : Int) - 1920 > 600 → pydiv 3840 1920 = 2 →
      verify_resize [⟨3840, 2160⟩, ⟨1920, 1080⟩] "spline36" =
        .ok (.resized (py_lower "spline36") ⟨3840, 2160⟩ 1920 1080)) ∧
    ((3840 : Int) - 1920 > 600 → (pydiv 3840 1920 = 3 ∨ pydiv 3840 1920 = 1) →
      verify_resize [⟨3840, 2160⟩, ⟨1920, 1080⟩] "spline36" =
        .ok (.resized (py_lower "spline36") ⟨3840, 2160⟩ 1280 720)) ∧
    ((3840 : Int) - 1920 > 600 → pydiv 3840 1920 ≠ 2 → pydiv 3840 1920 ≠ 3 →
      pydiv 3840 1920 ≠ 1 →
      verify_resize [⟨3840, 2160⟩, ⟨1920, 1080⟩] "spline36" =
        .error (.valueError (downscale_err 1920 1080))) ∧
    ((1920 : Int) - 3840 > 600 → (pydiv 1920 3840 = 2 ∨ pydiv 1920 3840 = 3) →
      verify_resize [⟨3840, 2160⟩, ⟨1920, 1080⟩] "spline36" =
        .ok (.resized (py_lower "spline36") ⟨3840, 2160⟩ 3840 2160)) ∧
    ((1920 : Int) - 3840 > 600 → pydiv 1920 3840 = 1 →
      verify_resize [⟨3840, 2160⟩, ⟨1920, 1080⟩] "spline36" =
        .ok (.resized (py_lower "spline36") ⟨3840, 2160⟩ 1920 1080)) ∧
    ((1920 : Int) - 3840 > 600 → pydiv 1920 3840 ≠ 2 → pydiv 1920 3840 ≠ 3 →
      pydiv 1920 3840 ≠ 1 →
      verify_resize [⟨3840, 2160⟩, ⟨1920, 1080⟩] "spline36" =
        .error (.valueError (upscale_err 1920 1080))) :=
  verify_resize_ratio_table ⟨3840, 2160⟩ ⟨1920, 1080⟩ "spline36"
    (by decide) (by norm_num) (by norm_num)

/-- C8: when the widths differ by at most 600 pixels neither scale branch
triggers and `verify_resize` returns the source clip unchanged (given a
resolvable kernel, which is looked up first). -/
theorem verify_resize_within_tolerance (src enc : Clip) (kernel : String)
    (hker : py_lower kernel ∈ KERNEL_KEYS)
    (htol : |src.width - enc.width| ≤ 600) :
    verify_resize [src, enc] kernel = .ok (.unchanged src) := by
  have habs := abs_le.mp htol
  have h1 : ¬(src.width - enc.width > 600) := by omega
  have h2 : ¬(enc.width - src.width > 600) := by omega
  have hlen : ¬(2 < ([src, enc] : List Clip).length ∧
      1 < (aspect_ratios [src, enc]).dedup.length) := by
    simp [aspect_ratios]
  simp [verify_resize, hlen, hker, h1, h2]

/-- C8 witness: a 1920-wide source against a 1320-wide encode (difference
exactly 600) is returned unchanged. -/
theorem verify_resize_within_tolerance_witness :
    verify_resize [⟨1920, 1080⟩, ⟨1320, 1080⟩] "lanczos" =
      .ok (.unchanged ⟨1920, 1080⟩) :=
  verify_resize_within_tolerance ⟨1920, 1080⟩ ⟨1320, 1080⟩ "lanczos"
    (by decide) (by decide)

/-- C10: the kernel name is resolved against the kernel table before the
widths are compared, so an unresolvable kernel name raises `KeyError` for
every clip pair — including pairs within the 600-pixel tolerance that
would otherwise return the source unchanged. -/
theorem verify_resize_unknown_kernel (src enc : Clip) (kernel : String)
    (hker : py_lower kernel ∉ KERNEL_KEYS) :
    verify_resize [src, enc] kernel = .error (.keyError (py_lower kernel)) := by
  have hlen : ¬(2 < ([src, enc] : List Clip).length ∧
      1 < (aspect_ratios [src, enc]).dedup.length) := by
    simp [aspect_ratios]
  simp [verify_resize, hlen, hker]

/-- C10 witness: two equal-width clips (no resizing would occur) still
raise `KeyError` for the unknown kernel name `nearest`. -/
theorem verify_resize_unknown_kernel_witness :
    verify_resize [⟨1920, 1080⟩, ⟨1920, 1080⟩] "nearest" =
      .error (.keyError (py_lower "nearest")) :=
  verify_resize_unknown_kernel ⟨1920, 1080⟩ ⟨1920, 1080⟩ "nearest" (by decide)

end Screenshots
